import Mathlib

/-!
Verification of the BME280 driver core (`src/bme280.rs`, `src/bme280/calibration.rs`):
a shallow embedding of the calibration decoder, the three compensation routines,
the raw-reading unpacker and the constructor's bus interaction, with theorems about
the behaviour the design document ascribes to them.

Machine integers are embedded as `Int` with explicit two's-complement wrapping at
the width of each Rust operation; Rust `/` on signed integers is `Int.tdiv`
(truncation toward zero), Rust arithmetic `>>` is floor division by a power of two,
and Rust `as uN` / `as iN` casts are reductions modulo `2^N` (re-centred for the
signed case).
-/

set_option maxRecDepth 8000

/-- Two's-complement wrap to 8 signed bits (`as i8`). -/
def wrap8 (x : Int) : Int := (x + 128) % 256 - 128

/-- Two's-complement wrap to 16 signed bits (i16 arithmetic). -/
def wrap16 (x : Int) : Int := (x + 32768) % 65536 - 32768

/-- Two's-complement wrap to 32 signed bits (i32 arithmetic). -/
def wrap32 (x : Int) : Int := (x + 2147483648) % 4294967296 - 2147483648

/-- Two's-complement wrap to 64 signed bits (i64 arithmetic). -/
def wrap64 (x : Int) : Int :=
  (x + 9223372036854775808) % 18446744073709551616 - 9223372036854775808

/-- Arithmetic shift right: floor division by `2 ^ n`, which agrees with Rust's
`>>` on an in-range two's-complement value. -/
def sar (x : Int) (n : Nat) : Int := Int.fdiv x (2 ^ n)

/-- The `as u32` cast of an i64 value: reduction modulo `2 ^ 32`. -/
def toU32 (x : Int) : Int := x % 4294967296

/-- i32 addition. -/
def add32 (a b : Int) : Int := wrap32 (a + b)

/-- i32 subtraction. -/
def sub32 (a b : Int) : Int := wrap32 (a - b)

/-- i32 multiplication. -/
def mul32 (a b : Int) : Int := wrap32 (a * b)

/-- i32 shift left. -/
def shl32 (a : Int) (n : Nat) : Int := wrap32 (a * 2 ^ n)

/-- i64 addition. -/
def add64 (a b : Int) : Int := wrap64 (a + b)

/-- i64 subtraction. -/
def sub64 (a b : Int) : Int := wrap64 (a - b)

/-- i64 multiplication. -/
def mul64 (a b : Int) : Int := wrap64 (a * b)

/-- i64 shift left. -/
def shl64 (a : Int) (n : Nat) : Int := wrap64 (a * 2 ^ n)

/-- i64 division, truncating toward zero as Rust's `/`. -/
def div64 (a b : Int) : Int := wrap64 (Int.tdiv a b)

/-- A byte of the calibration or measurement buffers. -/
abbrev Byte := Fin 256

/-- Value of `input[i]` as a nonnegative integer (buffers are indexed within bounds by the
callers; out-of-range reads default to 0 and never arise under the length guards). -/
def byteAt (input : List Byte) (i : Nat) : Int := ((input.getD i 0 : Byte) : Nat)

/-- The decoded coefficient block of `calibration.rs`, field for field. -/
structure CalibrationData where
  dig_T1 : Int
  dig_T2 : Int
  dig_T3 : Int
  dig_P1 : Int
  dig_P2 : Int
  dig_P3 : Int
  dig_P4 : Int
  dig_P5 : Int
  dig_P6 : Int
  dig_P7 : Int
  dig_P8 : Int
  dig_P9 : Int
  dig_H1 : Int
  dig_H2 : Int
  dig_H3 : Int
  dig_H4 : Int
  dig_H5 : Int
  dig_H6 : Int
  t_fine : Int
deriving Repr, DecidableEq

/-- The error kinds of `error.rs`. -/
inductive ErrorKind where
  | calibrationLengthError
  | other
deriving Repr, DecidableEq

/-- Embedding of `concat_bytes!(u16, v, i)`: `(v[i+1] as u16) << 8 | (v[i] as u16)`. -/
def concatU16 (hi lo : Int) : Int := Int.lor ((hi * 256) % 65536) lo

/-- Embedding of `concat_bytes!(i16, v, i)`: `(v[i+1] as i16) << 8 | (v[i] as i16)`. -/
def concatI16 (hi lo : Int) : Int := Int.lor (wrap16 (hi * 256)) lo

/-- The field-by-field decode performed by `CalibrationData::from_vec` once the
length guard has passed. -/
def decodeCal (input : List Byte) : CalibrationData where
  dig_T1 := concatU16 (byteAt input 1) (byteAt input 0)
  dig_T2 := concatI16 (byteAt input 3) (byteAt input 2)
  dig_T3 := concatI16 (byteAt input 5) (byteAt input 4)
  dig_P1 := concatU16 (byteAt input 7) (byteAt input 6)
  dig_P2 := concatI16 (byteAt input 9) (byteAt input 8)
  dig_P3 := concatI16 (byteAt input 11) (byteAt input 10)
  dig_P4 := concatI16 (byteAt input 13) (byteAt input 12)
  dig_P5 := concatI16 (byteAt input 15) (byteAt input 14)
  dig_P6 := concatI16 (byteAt input 17) (byteAt input 16)
  dig_P7 := concatI16 (byteAt input 19) (byteAt input 18)
  dig_P8 := concatI16 (byteAt input 21) (byteAt input 20)
  dig_P9 := concatI16 (byteAt input 23) (byteAt input 22)
  dig_H1 := byteAt input 25
  dig_H2 := concatI16 (byteAt input 27) (byteAt input 26)
  dig_H3 := byteAt input 28
  dig_H4 := Int.lor (wrap16 (byteAt input 29 * 16)) (Int.land (byteAt input 30) 15)
  dig_H5 := Int.lor (sar (byteAt input 30) 4) (wrap16 (byteAt input 31 * 16))
  dig_H6 := wrap8 (byteAt input 32)
  t_fine := 0

/-- Embedding of `CalibrationData::from_vec`: length guard, then the pure decode. -/
def from_vec (input : List Byte) : Except ErrorKind CalibrationData :=
  if input.length ≠ 42 then Except.error ErrorKind.calibrationLengthError
  else Except.ok (decodeCal input)

/-- Embedding of `CalibrationData::compensate_temperature`: returns the updated struct
(`t_fine` overwritten) together with the temperature output. -/
def compensate_temperature (c : CalibrationData) (raw_temperature : Int) :
    CalibrationData × Int :=
  let var1 : Int :=
    sar (mul32 (sub32 (sar raw_temperature 3) (shl32 c.dig_T1 1)) c.dig_T2) 11
  let var2 : Int :=
    sar (mul32 (sar (mul32 (sub32 (sar raw_temperature 4) c.dig_T1)
      (sub32 (sar raw_temperature 4) c.dig_T1)) 12) c.dig_T3) 14
  let fine : Int := add32 var1 var2
  let temperature : Int := sar (add32 (mul32 fine 5) 128) 8
  ({ c with t_fine := fine }, temperature)

/-- The first normalization term of `compensate_pressure`: the value held by
`var1` at the zero test, built from `t_fine` and P1–P3. It is the divisor of the
subsequent division. -/
def pressVar1 (c : CalibrationData) : Int :=
  let v : Int := sub64 c.t_fine 128000
  let v1 : Int := add64 (sar (mul64 (mul64 v v) c.dig_P3) 8)
    (shl64 (mul64 v c.dig_P2) 12)
  sar (mul64 (add64 (shl64 1 47) v1) c.dig_P1) 33

/-- Embedding of `CalibrationData::compensate_pressure` (result of the `as u32` cast). -/
def compensate_pressure (c : CalibrationData) (raw_pressure : Int) : Int :=
  let v : Int := sub64 c.t_fine 128000
  let var2a : Int := mul64 (mul64 v v) c.dig_P6
  let var2b : Int := add64 var2a (shl64 (mul64 v c.dig_P5) 17)
  let var2c : Int := add64 var2b (shl64 c.dig_P4 35)
  let var1 : Int := pressVar1 c
  if var1 = 0 then 0
  else
    let p0 : Int := sub64 1048576 raw_pressure
    let p1 : Int := div64 (mul64 (sub64 (shl64 p0 31) var2c) 3125) var1
    let v1 : Int := sar (mul64 (mul64 c.dig_P9 (sar p1 13)) (sar p1 13)) 25
    let v2 : Int := sar (mul64 c.dig_P8 p1) 19
    let p2 : Int := add64 (sar (add64 (add64 p1 v1) v2) 8) (shl64 c.dig_P7 4)
    toU32 p2

/-- Embedding of `CalibrationData::compensate_humidity` (result of the `as u32` cast). -/
def compensate_humidity (c : CalibrationData) (raw_humidity : Int) : Int :=
  let var1 : Int := sub32 c.t_fine 76800
  let var2 : Int := mul32 raw_humidity 16384
  let var3 : Int := mul32 c.dig_H4 1048576
  let var4 : Int := mul32 c.dig_H5 var1
  let var5 : Int := Int.tdiv (add32 (sub32 (sub32 var2 var3) var4) 16384) 32768
  let var2b : Int := Int.tdiv (mul32 var1 c.dig_H6) 1024
  let var3b : Int := Int.tdiv (mul32 var1 c.dig_H3) 2048
  let var4b : Int := add32 (Int.tdiv (mul32 var2b (add32 var3b 32768)) 1024) 2097152
  let var2c : Int := Int.tdiv (add32 (mul32 var4b c.dig_H2) 8192) 16384
  let var3c : Int := mul32 var5 var2c
  let var4c : Int := Int.tdiv (mul32 (Int.tdiv var3c 32768) (Int.tdiv var3c 32768)) 128
  let var5b : Int := sub32 var3c (Int.tdiv (mul32 var4c c.dig_H1) 16)
  let var5c : Int := if var5b < 0 then 0 else var5b
  let var5d : Int := if var5c > 419430400 then 419430400 else var5c
  let humidity : Int := Int.tdiv var5d 4096
  let humidity2 : Int := if humidity > 102400 then 102400 else humidity
  toU32 humidity2

/-- Embedding of `RawMeasurement` from `measurement.rs` (integer fields; `Humidity` is the u16). -/
structure RawMeasurement where
  Pressure : Int
  Temperature : Int
  Humidity : Int
deriving Repr, DecidableEq

/-- The unpacking performed by `read_raw_values` on the 8-byte burst buffer. -/
def unpackRaw (buffer : List Byte) : RawMeasurement where
  Pressure := Int.lor (Int.lor (shl32 (byteAt buffer 0) 12) (shl32 (byteAt buffer 1) 4))
    (sar (byteAt buffer 2) 4)
  Temperature := Int.lor (Int.lor (shl32 (byteAt buffer 3) 12) (shl32 (byteAt buffer 4) 4))
    (sar (byteAt buffer 5) 4)
  Humidity := Int.lor ((byteAt buffer 6 * 256) % 65536) (byteAt buffer 7)

/-- The register map of `bme280.rs`. -/
inductive Register where
  | Id
  | Calib00
  | Calib26
  | Pressure
  | Temperature
  | Humidity
deriving Repr, DecidableEq

/-- Embedding of `Register::address`. -/
def Register.address : Register → Nat
  | .Id => 0xD0
  | .Calib00 => 0x88
  | .Calib26 => 0xE1
  | .Pressure => 0xF7
  | .Temperature => 0xFA
  | .Humidity => 0xFD

/-- The two device addresses. -/
inductive DeviceAddr where
  | AD0
  | AD1
deriving Repr, DecidableEq

/-- Embedding of the `DeviceAddr` discriminant values. -/
def DeviceAddr.address : DeviceAddr → Nat
  | .AD0 => 0x76
  | .AD1 => 0x77

/-- The bus collaborator: a `write_read` of `n` bytes at a register either fails
(transport error) or yields bytes. -/
def Bus : Type := Register → Nat → Except Unit (List Byte)

/-- The bytes land in a preallocated zero buffer of the requested length, so the
buffer handed on is always exactly `n` bytes. -/
def toLen (l : List Byte) (n : Nat) : List Byte :=
  l.take n ++ List.replicate (n - l.length) 0

/-- The state owned by a constructed `BME280` driver (bus handle elided). -/
structure BME280State where
  address : DeviceAddr
  calibration : CalibrationData
deriving Repr, DecidableEq

/-- Embedding of `BME280::read_calibration`, instrumented with the list of registers it reads:
a 26-byte burst at `Calib00`, a 16-byte burst at `Calib26`, then `from_vec`. -/
def read_calibrationT (bus : Bus) : List Register × Except ErrorKind CalibrationData :=
  match bus Register.Calib00 26 with
  | Except.error _ => ([Register.Calib00], Except.error ErrorKind.other)
  | Except.ok b1 =>
    match bus Register.Calib26 16 with
    | Except.error _ => ([Register.Calib00, Register.Calib26], Except.error ErrorKind.other)
    | Except.ok b2 =>
      ([Register.Calib00, Register.Calib26], from_vec (toLen b1 26 ++ toLen b2 16))

/-- Embedding of `BME280::new`, instrumented with the registers it accesses: it stores the
address and the decoded calibration, propagating any failure of
`read_calibration`. -/
def newT (bus : Bus) (addr : DeviceAddr) : List Register × Except ErrorKind BME280State :=
  match read_calibrationT bus with
  | (tr, Except.error e) => (tr, Except.error e)
  | (tr, Except.ok cal) => (tr, Except.ok { address := addr, calibration := cal })

/-- The compensation calls a caller can make on a decoded `CalibrationData`. -/
inductive Op where
  | temp (raw : Int)
  | press (raw : Int)
  | humid (raw : Int)
deriving Repr, DecidableEq

/-- The state transition of each call: `compensate_temperature` takes `&mut self`
and returns the updated struct; `compensate_pressure` and `compensate_humidity`
take `&self` and cannot change it. -/
def step (c : CalibrationData) : Op → CalibrationData
  | .temp raw => (compensate_temperature c raw).1
  | .press _ => c
  | .humid _ => c

/-- The fine-values read by the pressure and humidity calls of a call sequence:
each such call reads the `t_fine` stored in the struct at the moment of the call. -/
def usedFines : CalibrationData → List Op → List Int
  | _, [] => []
  | c, Op.temp r :: rest => usedFines (step c (Op.temp r)) rest
  | c, Op.press r :: rest => c.t_fine :: usedFines (step c (Op.press r)) rest
  | c, Op.humid r :: rest => c.t_fine :: usedFines (step c (Op.humid r)) rest

/-- The fine-values produced by the temperature calls of a call sequence. -/
def producedFines : CalibrationData → List Op → List Int
  | _, [] => []
  | c, Op.temp r :: rest =>
    ((compensate_temperature c r).1).t_fine :: producedFines (step c (Op.temp r)) rest
  | c, Op.press r :: rest => producedFines (step c (Op.press r)) rest
  | c, Op.humid r :: rest => producedFines (step c (Op.humid r)) rest

/-- Pressure compensation as a function of an explicitly supplied fine-value. -/
def pressureWithFine (c : CalibrationData) (fine raw : Int) : Int :=
  compensate_pressure { c with t_fine := fine } raw

/-- Humidity compensation as a function of an explicitly supplied fine-value. -/
def humidityWithFine (c : CalibrationData) (fine raw : Int) : Int :=
  compensate_humidity { c with t_fine := fine } raw

/-- The calibration struct of the Bosch reference example: T1–T3 as in the
datasheet walk-through, remaining coefficients zero. -/
def boschCal : CalibrationData :=
  { dig_T1 := 27504, dig_T2 := 26435, dig_T3 := -1000,
    dig_P1 := 0, dig_P2 := 0, dig_P3 := 0, dig_P4 := 0, dig_P5 := 0,
    dig_P6 := 0, dig_P7 := 0, dig_P8 := 0, dig_P9 := 0,
    dig_H1 := 0, dig_H2 := 0, dig_H3 := 0, dig_H4 := 0, dig_H5 := 0, dig_H6 := 0,
    t_fine := 0 }

/-- The all-zero calibration struct (`CalibrationData::default()`). -/
def zeroCal : CalibrationData :=
  { dig_T1 := 0, dig_T2 := 0, dig_T3 := 0,
    dig_P1 := 0, dig_P2 := 0, dig_P3 := 0, dig_P4 := 0, dig_P5 := 0,
    dig_P6 := 0, dig_P7 := 0, dig_P8 := 0, dig_P9 := 0,
    dig_H1 := 0, dig_H2 := 0, dig_H3 := 0, dig_H4 := 0, dig_H5 := 0, dig_H6 := 0,
    t_fine := 0 }

theorem wrap16_eq_self {x : Int} (h0 : 0 ≤ x) (h1 : x < 32768) : wrap16 x = x := by
  unfold wrap16; omega

theorem wrap32_eq_self {x : Int} (h0 : 0 ≤ x) (h1 : x < 2147483648) : wrap32 x = x := by
  unfold wrap32; omega

theorem sar_eq_ediv (x : Int) (n : Nat) : sar x n = x / 2 ^ n :=
  Int.fdiv_eq_ediv x (by positivity)

theorem int_lor_natCast (m n : Nat) : Int.lor (m : Int) (n : Int) = ((m ||| n : Nat) : Int) :=
  rfl

theorem int_land_natCast (m n : Nat) : Int.land (m : Int) (n : Int) = ((m &&& n : Nat) : Int) :=
  rfl

theorem decodeCal_dig_H4 (input : List Byte) :
    (decodeCal input).dig_H4 =
      (((((input.getD 29 0 : Byte) : Nat) <<< 4) |||
        (((input.getD 30 0 : Byte) : Nat) &&& 15) : Nat) : Int) := by
  have h29 : ((input.getD 29 0 : Byte) : Nat) < 256 := (input.getD 29 0).isLt
  dsimp only [decodeCal]
  unfold byteAt
  rw [wrap16_eq_self (by positivity) (by omega)]
  rw [show ((((input.getD 29 0 : Byte) : Nat) : Int) * 16)
      = ((((input.getD 29 0 : Byte) : Nat) * 16 : Nat) : Int) by push_cast; ring]
  rw [show ((15 : Int)) = ((15 : Nat) : Int) by norm_num]
  rw [int_land_natCast, int_lor_natCast, Nat.shiftLeft_eq]

theorem decodeCal_dig_H5 (input : List Byte) :
    (decodeCal input).dig_H5 =
      (((((input.getD 30 0 : Byte) : Nat) >>> 4) |||
        (((input.getD 31 0 : Byte) : Nat) <<< 4) : Nat) : Int) := by
  have h31 : ((input.getD 31 0 : Byte) : Nat) < 256 := (input.getD 31 0).isLt
  dsimp only [decodeCal]
  unfold byteAt
  rw [wrap16_eq_self (by positivity) (by omega), sar_eq_ediv]
  rw [show ((((input.getD 30 0 : Byte) : Nat) : Int) / 2 ^ 4)
      = ((((input.getD 30 0 : Byte) : Nat) / 16 : Nat) : Int) by omega]
  rw [show ((((input.getD 31 0 : Byte) : Nat) : Int) * 16)
      = ((((input.getD 31 0 : Byte) : Nat) * 16 : Nat) : Int) by push_cast; ring]
  rw [int_lor_natCast, Nat.shiftLeft_eq, Nat.shiftRight_eq_div_pow]

theorem decodeCal_dig_H6 (input : List Byte) :
    (decodeCal input).dig_H6 =
      (if ((input.getD 32 0 : Byte) : Nat) < 128
        then ((((input.getD 32 0 : Byte) : Nat) : Int))
        else (((input.getD 32 0 : Byte) : Nat) : Int) - 256) := by
  have h32 : ((input.getD 32 0 : Byte) : Nat) < 256 := (input.getD 32 0).isLt
  dsimp only [decodeCal]
  unfold byteAt wrap8
  split <;> omega

/-- C5: for every 42-byte calibration buffer the decoder produces
H4 = (byte 29 shifted left 4 bits) OR'd with the low nibble of byte 30,
H5 = (byte 30 arithmetically shifted right 4 bits) OR'd with byte 31 shifted
left 4 bits, and H6 is the single signed byte at offset 32. -/
theorem decode_H4_H5_H6_spec (input : List Byte) (h : input.length = 42) :
    (decodeCal input).dig_H4 =
      (((((input.getD 29 0 : Byte) : Nat) <<< 4) |||
        (((input.getD 30 0 : Byte) : Nat) &&& 15) : Nat) : Int) ∧
    (decodeCal input).dig_H5 =
      (((((input.getD 30 0 : Byte) : Nat) >>> 4) |||
        (((input.getD 31 0 : Byte) : Nat) <<< 4) : Nat) : Int) ∧
    (decodeCal input).dig_H6 =
      (if ((input.getD 32 0 : Byte) : Nat) < 128
        then ((((input.getD 32 0 : Byte) : Nat) : Int))
        else (((input.getD 32 0 : Byte) : Nat) : Int) - 256) :=
  ⟨decodeCal_dig_H4 input, decodeCal_dig_H5 input, decodeCal_dig_H6 input⟩

/-- Witness for C5 at the concrete buffer of 42 bytes all equal to 0xAB. -/
theorem decode_H4_H5_H6_spec_witness :
    (decodeCal (List.replicate 42 171)).dig_H4 = 2747 ∧
    (decodeCal (List.replicate 42 171)).dig_H5 = 2746 ∧
    (decodeCal (List.replicate 42 171)).dig_H6 = -85 := by
  obtain ⟨h1, h2, h3⟩ := decode_H4_H5_H6_spec (List.replicate 42 171) (by decide)
  refine ⟨?_, ?_, ?_⟩
  · rw [h1]; decide
  · rw [h2]; decide
  · rw [h3]; decide

/-- C10: every calibration struct accepted by `from_vec` has H4 and H5 in
[0, 4095] — never negative despite their signed 16-bit type — because the source
bytes are zero-extended before the shifts and ORs. -/
theorem reachable_H4_H5_bounds (input : List Byte) (c : CalibrationData)
    (h : from_vec input = Except.ok c) :
    0 ≤ c.dig_H4 ∧ c.dig_H4 ≤ 4095 ∧ 0 ≤ c.dig_H5 ∧ c.dig_H5 ≤ 4095 := by
  have hc : c = decodeCal input := by
    unfold from_vec at h
    split at h
    · exact absurd h (by simp)
    · exact (Except.ok.injEq _ _).mp h.symm
  subst hc
  have h29 : ((input.getD 29 0 : Byte) : Nat) < 256 := (input.getD 29 0).isLt
  have h30 : ((input.getD 30 0 : Byte) : Nat) < 256 := (input.getD 30 0).isLt
  have h31 : ((input.getD 31 0 : Byte) : Nat) < 256 := (input.getD 31 0).isLt
  have b4 : (((input.getD 29 0 : Byte) : Nat) <<< 4) |||
      (((input.getD 30 0 : Byte) : Nat) &&& 15) < 2 ^ 12 := by
    refine Nat.or_lt_two_pow ?_ ?_
    · rw [Nat.shiftLeft_eq]; omega
    · have := Nat.and_le_right (n := ((input.getD 30 0 : Byte) : Nat)) (m := 15)
      omega
  have b5 : (((input.getD 30 0 : Byte) : Nat) >>> 4) |||
      (((input.getD 31 0 : Byte) : Nat) <<< 4) < 2 ^ 12 := by
    refine Nat.or_lt_two_pow ?_ ?_
    · rw [Nat.shiftRight_eq_div_pow]; omega
    · rw [Nat.shiftLeft_eq]; omega
  rw [decodeCal_dig_H4, decodeCal_dig_H5]
  refine ⟨by positivity, by omega, by positivity, by omega⟩

/-- Witness for C10 at the all-zero 42-byte buffer. -/
theorem reachable_H4_H5_bounds_witness :
    0 ≤ (decodeCal (List.replicate 42 0)).dig_H4 ∧
    (decodeCal (List.replicate 42 0)).dig_H4 ≤ 4095 ∧
    0 ≤ (decodeCal (List.replicate 42 0)).dig_H5 ∧
    (decodeCal (List.replicate 42 0)).dig_H5 ≤ 4095 :=
  reachable_H4_H5_bounds (List.replicate 42 0) _ rfl

/-- C4: `from_vec` succeeds with the decoded coefficients on every input of
exactly 42 bytes, and fails with the calibration-length error on every input of
any other length, decoding nothing in that case. -/
theorem from_vec_length_spec (input : List Byte) :
    (input.length = 42 → from_vec input = Except.ok (decodeCal input)) ∧
    (input.length ≠ 42 → from_vec input = Except.error ErrorKind.calibrationLengthError) := by
  constructor <;> intro h <;> simp [from_vec, h]

/-- Witness for C4: a 42-byte input decodes, the empty input is rejected. -/
theorem from_vec_length_spec_witness :
    from_vec (List.replicate 42 0) = Except.ok (decodeCal (List.replicate 42 0)) ∧
    from_vec [] = Except.error ErrorKind.calibrationLengthError :=
  ⟨(from_vec_length_spec (List.replicate 42 0)).1 (by decide),
   (from_vec_length_spec []).2 (by decide)⟩

/-- Counterexample to C1: on the Bosch reference inputs (raw temperature 519888,
T1 = 27504, T2 = 26435, T3 = -1000) the temperature output of
`compensate_temperature` is 2508, not the 2386 the design document states. -/
theorem bosch_temperature_output_ne_2386 :
    (compensate_temperature boschCal 519888).2 = 2508 ∧
    (compensate_temperature boschCal 519888).2 ≠ 2386 := by
  constructor
  · decide
  · decide

/-- C1 (amended): on the Bosch reference inputs `compensate_temperature` sets
`t_fine` to exactly 128422 and returns a temperature output of exactly 2508
(hundredths of a degree Celsius). -/
theorem bosch_temperature_example :
    compensate_temperature boschCal 519888 = ({ boschCal with t_fine := 128422 }, 2508) := by
  decide

/-- C3: whenever the first 64-bit normalization term of `compensate_pressure`
is exactly zero, the function returns 0 and the division by that term is never
executed. -/
theorem pressure_zero_divisor_short_circuit (c : CalibrationData) (raw : Int)
    (h : pressVar1 c = 0) : compensate_pressure c raw = 0 := by
  unfold compensate_pressure
  dsimp only
  rw [if_pos h]

/-- Witness for C3: the all-zero calibration (P1 = 0) makes the normalization
term zero, and pressure compensation returns 0 on it. -/
theorem pressure_zero_divisor_short_circuit_witness :
    pressVar1 zeroCal = 0 ∧ compensate_pressure zeroCal 415148 = 0 :=
  ⟨by decide, pressure_zero_divisor_short_circuit zeroCal 415148 (by decide)⟩

theorem clamp_tail_bounds (X : Int) :
    0 ≤ toU32 (if Int.tdiv (if (if X < 0 then 0 else X) > 419430400 then 419430400
        else if X < 0 then 0 else X) 4096 > 102400 then 102400
      else Int.tdiv (if (if X < 0 then 0 else X) > 419430400 then 419430400
        else if X < 0 then 0 else X) 4096) ∧
    toU32 (if Int.tdiv (if (if X < 0 then 0 else X) > 419430400 then 419430400
        else if X < 0 then 0 else X) 4096 > 102400 then 102400
      else Int.tdiv (if (if X < 0 then 0 else X) > 419430400 then 419430400
        else if X < 0 then 0 else X) 4096) ≤ 102400 := by
  have hc0 : 0 ≤ (if (if X < 0 then 0 else X) > 419430400 then 419430400
      else if X < 0 then 0 else X) := by split_ifs <;> omega
  have hc1 : (if (if X < 0 then 0 else X) > 419430400 then 419430400
      else if X < 0 then 0 else X) ≤ 419430400 := by split_ifs <;> omega
  rw [Int.tdiv_eq_ediv hc0 (by norm_num)]
  unfold toU32
  split_ifs with hq <;> constructor <;> omega

/-- C2: for every calibration state (any coefficients, any `t_fine`) and every
raw humidity input in [0, 65535], `compensate_humidity` returns a value in
[0, 102400]: the intermediate value is clamped to [0, 419430400] before the
division by 4096 and the quotient is capped at 102400. -/
theorem humidity_output_clamped (c : CalibrationData) (raw : Int)
    (h0 : 0 ≤ raw) (h1 : raw ≤ 65535) :
    0 ≤ compensate_humidity c raw ∧ compensate_humidity c raw ≤ 102400 := by
  unfold compensate_humidity
  exact clamp_tail_bounds _

/-- Witness for C2 at the all-zero calibration and raw humidity 30000. -/
theorem humidity_output_clamped_witness :
    (0 : Int) ≤ 30000 ∧ (30000 : Int) ≤ 65535 ∧
    0 ≤ compensate_humidity zeroCal 30000 ∧ compensate_humidity zeroCal 30000 ≤ 102400 :=
  ⟨by decide, by decide,
   (humidity_output_clamped zeroCal 30000 (by decide) (by decide)).1,
   (humidity_output_clamped zeroCal 30000 (by decide) (by decide)).2⟩

theorem unpack20_formula (a b c' : Nat) (ha : a < 256) (hb : b < 256) :
    Int.lor (Int.lor (shl32 (a : Int) 12) (shl32 (b : Int) 4)) (sar (c' : Int) 4)
      = (((a <<< 12) ||| (b <<< 4) ||| (c' >>> 4) : Nat) : Int) := by
  unfold shl32
  rw [wrap32_eq_self (by positivity) (by omega), wrap32_eq_self (by positivity) (by omega)]
  rw [sar_eq_ediv]
  rw [show ((a : Int) * 2 ^ 12) = ((a * 4096 : Nat) : Int) by push_cast; ring]
  rw [show ((b : Int) * 2 ^ 4) = ((b * 16 : Nat) : Int) by push_cast; ring]
  rw [show ((c' : Int) / 2 ^ 4) = ((c' / 16 : Nat) : Int) by omega]
  rw [int_lor_natCast, int_lor_natCast, Nat.shiftLeft_eq, Nat.shiftLeft_eq,
    Nat.shiftRight_eq_div_pow]

theorem unpack16_formula (a b : Nat) (ha : a < 256) :
    Int.lor (((a : Int) * 256) % 65536) (b : Int) = (((a <<< 8) ||| b : Nat) : Int) := by
  rw [Int.emod_eq_of_lt (by positivity) (by omega)]
  rw [show ((a : Int) * 256) = ((a * 256 : Nat) : Int) by push_cast; ring]
  rw [int_lor_natCast, Nat.shiftLeft_eq]

/-- C6: for every 8-byte burst buffer the unpacker produces
pressure = byte0 shifted left 12 OR byte1 shifted left 4 OR byte2 shifted right 4,
temperature identically from bytes 3–5, and humidity = byte6 shifted left 8 OR
byte7; on the bytes 0x12 0x34 0x5F 0x65 0x43 0x2F 0x80 0x00 this yields pressure
0x12345, temperature 0x65432 and humidity 0x8000, the low nibbles of bytes 2 and
5 being discarded. -/
theorem unpack_raw_spec :
    (∀ b0 b1 b2 b3 b4 b5 b6 b7 : Byte,
      (unpackRaw [b0, b1, b2, b3, b4, b5, b6, b7]).Pressure
        = ((((b0 : Nat) <<< 12) ||| ((b1 : Nat) <<< 4) ||| ((b2 : Nat) >>> 4) : Nat) : Int) ∧
      (unpackRaw [b0, b1, b2, b3, b4, b5, b6, b7]).Temperature
        = ((((b3 : Nat) <<< 12) ||| ((b4 : Nat) <<< 4) ||| ((b5 : Nat) >>> 4) : Nat) : Int) ∧
      (unpackRaw [b0, b1, b2, b3, b4, b5, b6, b7]).Humidity
        = ((((b6 : Nat) <<< 8) ||| (b7 : Nat) : Nat) : Int)) ∧
    unpackRaw [0x12, 0x34, 0x5F, 0x65, 0x43, 0x2F, 0x80, 0x00]
      = { Pressure := 0x12345, Temperature := 0x65432, Humidity := 0x8000 } := by
  constructor
  · intro b0 b1 b2 b3 b4 b5 b6 b7
    refine ⟨?_, ?_, ?_⟩
    · dsimp only [unpackRaw]
      unfold byteAt
      exact unpack20_formula _ _ _ (Fin.isLt _) (Fin.isLt _)
    · dsimp only [unpackRaw]
      unfold byteAt
      exact unpack20_formula _ _ _ (Fin.isLt _) (Fin.isLt _)
    · dsimp only [unpackRaw]
      unfold byteAt
      exact unpack16_formula _ _ (Fin.isLt _)
  · decide

/-- Counterexample to C7: a call sequence on a decoded `CalibrationData` that
evaluates `compensate_pressure` with the fine-value 0, which was returned by no
temperature compensation — the sequence contains none. The fine-value is hidden
mutable state on the struct, not an explicit argument. -/
theorem stale_fine_counterexample :
    ¬ (∀ f ∈ usedFines (decodeCal (List.replicate 42 3)) [Op.press 420000],
        f ∈ producedFines (decodeCal (List.replicate 42 3)) [Op.press 420000]) := by
  decide

/-- C7 (amended): the fine-value is implicit mutable state on `CalibrationData`:
`from_vec` initializes `t_fine` to 0, pressure and humidity compensation read the
stored `t_fine` at call time, so a decoded struct admits a call sequence which
evaluates pressure compensation with a fine-value no temperature compensation
produced. -/
theorem fine_value_implicit_state (input : List Byte) (r : Int)
    (h : input.length = 42) :
    (decodeCal input).t_fine = 0 ∧
    usedFines (decodeCal input) [Op.press r] = [0] ∧
    producedFines (decodeCal input) [Op.press r] = [] ∧
    (∀ (c : CalibrationData) (raw : Int),
      compensate_pressure c raw = pressureWithFine c c.t_fine raw ∧
      compensate_humidity c raw = humidityWithFine c c.t_fine raw) := by
  refine ⟨rfl, rfl, rfl, ?_⟩
  intro c raw
  exact ⟨rfl, rfl⟩

/-- Witness for C7 (amended) at a concrete 42-byte buffer. -/
theorem fine_value_implicit_state_witness :
    (decodeCal (List.replicate 42 3)).t_fine = 0 ∧
    usedFines (decodeCal (List.replicate 42 3)) [Op.press 420000] = [0] ∧
    producedFines (decodeCal (List.replicate 42 3)) [Op.press 420000] = [] :=
  ⟨(fine_value_implicit_state (List.replicate 42 3) 420000 (by decide)).1,
   (fine_value_implicit_state (List.replicate 42 3) 420000 (by decide)).2.1,
   (fine_value_implicit_state (List.replicate 42 3) 420000 (by decide)).2.2.1⟩

/-- C9: after construction the 18 coefficient fields are never modified:
`compensate_temperature` preserves every coefficient field (it overwrites only
`t_fine`), and the pressure and humidity calls, which take the struct immutably,
change no field at all. -/
theorem compensation_frame (c : CalibrationData) (rt rp rh : Int) :
    ((compensate_temperature c rt).1.dig_T1 = c.dig_T1 ∧
     (compensate_temperature c rt).1.dig_T2 = c.dig_T2 ∧
     (compensate_temperature c rt).1.dig_T3 = c.dig_T3 ∧
     (compensate_temperature c rt).1.dig_P1 = c.dig_P1 ∧
     (compensate_temperature c rt).1.dig_P2 = c.dig_P2 ∧
     (compensate_temperature c rt).1.dig_P3 = c.dig_P3 ∧
     (compensate_temperature c rt).1.dig_P4 = c.dig_P4 ∧
     (compensate_temperature c rt).1.dig_P5 = c.dig_P5 ∧
     (compensate_temperature c rt).1.dig_P6 = c.dig_P6 ∧
     (compensate_temperature c rt).1.dig_P7 = c.dig_P7 ∧
     (compensate_temperature c rt).1.dig_P8 = c.dig_P8 ∧
     (compensate_temperature c rt).1.dig_P9 = c.dig_P9 ∧
     (compensate_temperature c rt).1.dig_H1 = c.dig_H1 ∧
     (compensate_temperature c rt).1.dig_H2 = c.dig_H2 ∧
     (compensate_temperature c rt).1.dig_H3 = c.dig_H3 ∧
     (compensate_temperature c rt).1.dig_H4 = c.dig_H4 ∧
     (compensate_temperature c rt).1.dig_H5 = c.dig_H5 ∧
     (compensate_temperature c rt).1.dig_H6 = c.dig_H6) ∧
    step c (Op.press rp) = c ∧ step c (Op.humid rh) = c :=
  ⟨⟨rfl, rfl, rfl, rfl, rfl, rfl, rfl, rfl, rfl, rfl, rfl, rfl, rfl, rfl, rfl,
    rfl, rfl, rfl⟩, rfl, rfl⟩

/-- A bus whose every read succeeds with an empty byte list (the preallocated
zero buffer then stays all zeros). -/
def emptyBus : Bus := fun _ _ => Except.ok []

/-- The driver state constructed over `emptyBus` at address AD1. -/
def emptyBusState : BME280State :=
  { address := DeviceAddr.AD1, calibration := decodeCal (toLen [] 26 ++ toLen [] 16) }

/-- Counterexample to C8: the constructor never reads the device identity
register — on a concrete bus its register-access trace does not contain `Id`. -/
theorem new_no_id_read_counterexample :
    Register.Id ∉ (newT emptyBus DeviceAddr.AD0).1 := by
  decide

/-- C8 (amended): the constructor reads only the two calibration registers —
never the identity register — and decodes the 42-byte block, failing the whole
construction if the reads or the decode fail; every constructed state carries the
successful decode of the bytes that were read. -/
theorem new_calibration_decode (bus : Bus) (addr : DeviceAddr) :
    Register.Id ∉ (newT bus addr).1 ∧
    (∀ st, (newT bus addr).2 = Except.ok st →
      st.address = addr ∧
      ∃ b1 b2, bus Register.Calib00 26 = Except.ok b1 ∧
        bus Register.Calib26 16 = Except.ok b2 ∧
        from_vec (toLen b1 26 ++ toLen b2 16) = Except.ok st.calibration) := by
  unfold newT read_calibrationT
  rcases h1 : bus Register.Calib00 26 with e1 | b1
  · simp only [h1]
    refine ⟨by decide, ?_⟩
    intro st hst
    simp at hst
  · rcases h2 : bus Register.Calib26 16 with e2 | b2
    · simp only [h1, h2]
      refine ⟨by decide, ?_⟩
      intro st hst
      simp at hst
    · simp only [h1, h2]
      rcases h3 : from_vec (toLen b1 26 ++ toLen b2 16) with e3 | cal
      · simp only [h3]
        refine ⟨by decide, ?_⟩
        intro st hst
        simp at hst
      · simp only [h3]
        refine ⟨by decide, ?_⟩
        intro st hst
        have he : ({ address := addr, calibration := cal } : BME280State) = st :=
          (Except.ok.injEq _ _).mp hst
        subst he
        exact ⟨rfl, b1, b2, rfl, rfl, h3⟩

/-- Witness for C8 (amended) on a concrete bus whose reads all succeed. -/
theorem new_calibration_decode_witness :
    Register.Id ∉ (newT emptyBus DeviceAddr.AD1).1 ∧
    emptyBusState.address = DeviceAddr.AD1 ∧
    ∃ b1 b2, emptyBus Register.Calib00 26 = Except.ok b1 ∧
      emptyBus Register.Calib26 16 = Except.ok b2 ∧
      from_vec (toLen b1 26 ++ toLen b2 16) = Except.ok emptyBusState.calibration :=
  ⟨(new_calibration_decode emptyBus DeviceAddr.AD1).1,
   ((new_calibration_decode emptyBus DeviceAddr.AD1).2 emptyBusState rfl).1,
   ((new_calibration_decode emptyBus DeviceAddr.AD1).2 emptyBusState rfl).2⟩
